import Mathlib

/-!
Verification of the ticket-reminder bot core (src/main.py).

The embedding models the module-level state and the four relevant entry
points of the program:

- the in-memory `tickets` dict becomes an association list `TicketStore`;
- `new_ticket` (registration handler) becomes a pure function from a
  request, a configuration and an oracle describing the chat-platform
  call outcomes to a response and an updated store;
- `check_reminders` (the scheduler sweep) becomes a fold over a snapshot
  of the store entries, with per-ticket oracles for the reaction lookup,
  the reminder send and the snapshot write; a raised `SlackApiError` is
  the caught case, a persistence failure is the uncaught case (modelled
  with `Except`: an `error` outcome aborts the sweep, carrying the state
  reached at the point of the raise);
- `complete_ticket` and the reaction branch of `slack_events` become
  pure store transformers;
- `save_tickets` and `load_tickets` become (de)serialization between the
  store and a record whose timestamp fields are kept in a lossless
  textual (decimal-digit) form, mirroring isoformat round-tripping.

Timestamps are naturals (seconds); a timedelta comparison
`now - last >= timedelta(hours=h)` becomes `h * 3600 ≤ now - last`
with truncated subtraction, which agrees with the source whenever the
interval is positive. A missing or falsy string field of a request or
record is modelled as the empty string, matching the pervasive
`if not x` checks of the source.
-/

namespace ReminderBot

/-- A tracked ticket, mirroring the dict stored at `tickets[ticket_id]`
by `new_ticket` in src/main.py (lines 322-334). -/
structure TicketInfo where
  ts : String
  assignee_slack_id : String
  assignee_email : String
  last_reminder : Nat
  created_at : Nat
  reminder_count : Nat
  ticket_url : String
  status : String
  channel_id : String
  channel_type : String
  is_escalation : Bool
deriving DecidableEq

/-- The module-level `tickets` dict: an insertion-ordered map from ticket id
to record, with unique keys in any state the program reaches. -/
abbrev TicketStore := List (String × TicketInfo)

/-- Dict lookup (`d.get(k)` / `k in d`). -/
def alistGet {α : Type} : List (String × α) → String → Option α
  | [], _ => none
  | (k, v) :: rest, key => if k = key then some v else alistGet rest key

/-- Dict write (`d[k] = v`): replace in place if the key exists, else append,
as a Python dict keeps the original position of an overwritten key. -/
def alistSet {α : Type} : List (String × α) → String → α → List (String × α)
  | [], key, v => [(key, v)]
  | (k, w) :: rest, key, v =>
    if k = key then (key, v) :: rest else (k, w) :: alistSet rest key v

/-- Dict deletion (`del d[k]`), a no-op when the key is absent. -/
def alistErase {α : Type} : List (String × α) → String → List (String × α)
  | [], _ => []
  | (k, w) :: rest, key =>
    if k = key then alistErase rest key else (k, w) :: alistErase rest key

/-- The channel configuration `SLACK_CHANNELS` (src/main.py lines 53-56):
each entry comes from an environment variable and may be unset. -/
structure Config where
  sosChannel : Option String
  escalationsChannel : Option String
deriving DecidableEq

/-- The static assignee directory `ASSIGNEE_MAP` (src/main.py lines 67-77). -/
def ASSIGNEE_MAP : List (String × String) :=
  [("daniel.molina@finally.com", "U06RX9U53AL"),
   ("julio.matta@finally.com", "U06PUTV0C64"),
   ("nelson.perez@finally.com", "U06QTUZ4DN3"),
   ("jean.dejesus@finally.com", "U078HJLK6QL"),
   ("leila.ghazzaoui@finally.com", "U0788V1V65U"),
   ("samuel.aguirre@finally.com", "U078FEXLW5R"),
   ("jose.perez@finally.com", "U07FRMSKEMN"),
   ("frances.rivera@finally.com", "U08BUM31GS3"),
   ("angelica.calderon@finally.com", "U07HHE1N54J")]

/-- Lowercasing of a string, character by character: the model of Python
`str.lower()` (it agrees with `String.toLower`, but is stated over the
character list so that concrete instances evaluate in the kernel). -/
def pyLower (s : String) : String := ⟨s.data.map Char.toLower⟩

/-- Assignee resolution as performed at src/main.py line 223:
`ASSIGNEE_MAP.get(assignee_email.lower())`. -/
def resolveAssignee (assignee_email : String) : Option String :=
  alistGet ASSIGNEE_MAP (pyLower assignee_email)

/-- Outcome of one chat-platform (Slack SDK) call: a value, or a raised
`SlackApiError`. -/
inductive SlackResult (α : Type) where
  | ok (value : α)
  | apiError
deriving DecidableEq

/-- Outcome of one `save_tickets()` call: success, or a raised I/O error
(which is not a `SlackApiError` and hence not caught by the handlers in
`check_reminders` or `new_ticket`). -/
inductive PersistResult where
  | ok
  | ioError
deriving DecidableEq

/-- Observable chat-platform side effects of one sweep, tagged by ticket id:
a removal after a detected check-mark reaction, a per-assignee reminder
send, and a channel-wide escalation broadcast. -/
inductive Event where
  | removed (ticket_id : String)
  | reminderSent (ticket_id : String)
  | broadcastSent (ticket_id : String)
deriving DecidableEq

/-- Oracle for the external calls made while `check_reminders` processes one
ticket: the `reactions_get` outcome (with the value telling whether a
`white_check_mark` reaction is present), the reminder `chat_postMessage`
outcome, and the outcome of the (at most one) `save_tickets()` call.
The escalation broadcast post has no observable effect on the state
beyond the send itself (a failure of it is caught as a `SlackApiError`
with nothing after it in the loop body), so it needs no oracle entry. -/
structure TickEnv where
  reactions : SlackResult Bool
  sendReminder : SlackResult Unit
  saveResult : PersistResult
deriving DecidableEq

/-- Channel used for a ticket during the sweep (src/main.py lines 451-457):
the record's `channel_id` if set, else the configured SOS channel, else
the ticket is skipped. -/
def effectiveChannel (cfg : Config) (info : TicketInfo) : Option String :=
  if info.channel_id ≠ "" then some info.channel_id
  else
    match cfg.sosChannel with
    | some c => if c ≠ "" then some c else none
    | none => none

/-- Reminder cadence policy (src/main.py line 469):
2 hours for escalation tickets, 4 hours otherwise. -/
def reminderHours (info : TicketInfo) : Nat :=
  if info.is_escalation then 2 else 4

/-- The due test of src/main.py line 471:
`now - info[last_reminder] >= timedelta(hours=reminder_hours)`. -/
def reminderDue (now : Nat) (info : TicketInfo) : Bool :=
  decide (reminderHours info * 3600 ≤ now - info.last_reminder)

/-- The in-place mutation of src/main.py lines 481-482 after a successful
reminder send: `last_reminder = now` and `reminder_count += 1`. -/
def applyReminder (now : Nat) (info : TicketInfo) : TicketInfo :=
  { info with
    last_reminder := now
    reminder_count := info.reminder_count + 1 }

/-- State (store, emitted events) reached while processing one ticket. -/
abbrev TickOutcome := TicketStore × List Event

/-- One iteration of the `for ticket_id, info in list(tickets.items())` loop
body of `check_reminders` (src/main.py lines 448-496). An `ok` outcome
means the loop continues (including the `except SlackApiError` case); an
`error` outcome means an uncaught exception was raised (the only source
is a failing `save_tickets()`), carrying the state already reached. -/
def processTicket (cfg : Config) (env : TickEnv) (now : Nat)
    (store : TicketStore) (ticket_id : String) (info : TicketInfo) :
    Except TickOutcome TickOutcome :=
  match effectiveChannel cfg info with
  | none => .ok (store, [])
  | some _channel =>
    match env.reactions with
    | .apiError => .ok (store, [])
    | .ok hasCheckMark =>
      if hasCheckMark then
        match env.saveResult with
        | .ok => .ok (alistErase store ticket_id, [.removed ticket_id])
        | .ioError => .error (alistErase store ticket_id, [.removed ticket_id])
      else
        if reminderDue now info then
          match env.sendReminder with
          | .apiError => .ok (store, [])
          | .ok _ =>
            match env.saveResult with
            | .ioError =>
              .error (alistSet store ticket_id (applyReminder now info),
                      [.reminderSent ticket_id])
            | .ok =>
              if 3 ≤ (applyReminder now info).reminder_count then
                .ok (alistSet store ticket_id (applyReminder now info),
                     [.reminderSent ticket_id, .broadcastSent ticket_id])
              else
                .ok (alistSet store ticket_id (applyReminder now info),
                     [.reminderSent ticket_id])
        else .ok (store, [])

/-- Events of a per-ticket outcome, raised or not. -/
def eventsOf (r : Except TickOutcome TickOutcome) : List Event :=
  match r with
  | .ok (_, evs) => evs
  | .error (_, evs) => evs

/-- Store of a per-ticket outcome, raised or not. -/
def storeOf (r : Except TickOutcome TickOutcome) : TicketStore :=
  match r with
  | .ok (s, _) => s
  | .error (s, _) => s

/-- Result of one sweep: the final store, the chat side effects in order,
and whether the sweep was aborted by an uncaught exception before
reaching the remaining tickets. -/
structure SweepResult where
  store : TicketStore
  events : List Event
  aborted : Bool
deriving DecidableEq

/-- The sweep loop over the snapshot `list(tickets.items())`, threading the
evolving store; an uncaught exception stops the iteration. -/
def sweepAux (cfg : Config) (env : String → TickEnv) (now : Nat) :
    List (String × TicketInfo) → TicketStore → SweepResult
  | [], store => ⟨store, [], false⟩
  | (ticket_id, info) :: rest, store =>
    match processTicket cfg (env ticket_id) now store ticket_id info with
    | .ok (store2, evs) =>
      let r := sweepAux cfg env now rest store2
      ⟨r.store, evs ++ r.events, r.aborted⟩
    | .error (store2, evs) => ⟨store2, evs, true⟩

/-- The scheduler tick `check_reminders` (src/main.py lines 445-496),
parameterized by the per-ticket oracle `env` and the current time. -/
def check_reminders (cfg : Config) (env : String → TickEnv) (now : Nat)
    (store : TicketStore) : SweepResult :=
  sweepAux cfg env now store store

/-- A registration payload for `/new_ticket`; absent fields are the empty
string, matching the falsy checks of the handler. -/
structure NewTicketRequest where
  ticket_id : String
  assignee_email : String
  message_ts : String
  ticket_url : String
  channel_id : String
  channel_type : String
  is_escalation : Bool
deriving DecidableEq

/-- Oracle for the external calls of `new_ticket`: whether
`float(message_ts)` parses, the `conversations_history` outcome (value:
whether any message was found near the timestamp), the first and the
possible second fallback `chat_postMessage` outcome (value: the new
message timestamp), and the `save_tickets()` outcome. -/
structure NewTicketEnv where
  tsParseOk : Bool
  history : SlackResult Bool
  postFallback : SlackResult String
  postFallback2 : SlackResult String
  persist : PersistResult
deriving DecidableEq

/-- Responses of the `/new_ticket` handler, keeping the distinct error
causes of the source apart. -/
inductive NewTicketResponse where
  | missingFieldsError (missing : List String)
  | noChannel
  | unknownAssignee (assignee_email : String)
  | fallbackFailed
  | serverError
  | registered (channel_id channel_type : String)
deriving DecidableEq

/-- The missing-field list built at src/main.py lines 208-214. -/
def missingList (r : NewTicketRequest) : List String :=
  (if r.ticket_id = "" then ["ticket_id"] else []) ++
  (if r.assignee_email = "" then ["assignee_email"] else []) ++
  (if r.message_ts = "" then ["message_ts"] else [])

/-- The message-verification block of `new_ticket` (src/main.py lines
229-319). A malformed timestamp (the `ValueError` branch) or an absent or
erroring history lookup leads to a fallback `chat_postMessage`; in the
message-not-found branch a `SlackApiError` from the first fallback post is
caught by the outer `except SlackApiError` handler, which posts once more.
The result is the final message timestamp, or an error when the last
fallback post in the taken branch also raises (the 500 response). -/
def verifyMessage (env : NewTicketEnv) (message_ts : String) :
    Except Unit String :=
  if env.tsParseOk then
    match env.history with
    | .ok true => .ok message_ts
    | .ok false =>
      match env.postFallback with
      | .ok ts2 => .ok ts2
      | .apiError =>
        match env.postFallback2 with
        | .ok ts2 => .ok ts2
        | .apiError => .error ()
    | .apiError =>
      match env.postFallback with
      | .ok ts2 => .ok ts2
      | .apiError => .error ()
  else
    match env.postFallback with
    | .ok ts2 => .ok ts2
    | .apiError => .error ()

/-- The record constructed at src/main.py lines 322-334 for a registered
ticket: `reminder_count` 0, `status` open, both timestamps now, a default
`ticket_url` when none was supplied, and the (possibly fallback-replaced)
message timestamp. -/
def madeTicket (now : Nat) (r : NewTicketRequest)
    (slack_id final_ts channel_id : String) : TicketInfo :=
  { ts := final_ts
    assignee_slack_id := slack_id
    assignee_email := r.assignee_email
    last_reminder := now
    created_at := now
    reminder_count := 0
    ticket_url :=
      if r.ticket_url = "" then
        "https://finally.zendesk.com/agent/tickets/" ++ r.ticket_id
      else r.ticket_url
    status := "open"
    channel_id := channel_id
    channel_type := if r.channel_type = "" then "sos" else r.channel_type
    is_escalation := r.is_escalation }

/-- The `/new_ticket` handler (src/main.py lines 175-347). The order of the
checks follows the source: channel resolution (with its early 400 when no
channel can be determined), then the required-fields check, then assignee
resolution, then message verification, then the store write and the
snapshot save. -/
def new_ticket (cfg : Config) (env : NewTicketEnv) (now : Nat)
    (r : NewTicketRequest) (store : TicketStore) :
    NewTicketResponse × TicketStore :=
  let channel_type := if r.channel_type = "" then "sos" else r.channel_type
  let channelOpt : Option String :=
    if r.channel_id ≠ "" then some r.channel_id
    else
      match (if r.is_escalation || channel_type = "escalations"
             then cfg.escalationsChannel else cfg.sosChannel) with
      | some c => if c ≠ "" then some c else none
      | none => none
  match channelOpt with
  | none => (.noChannel, store)
  | some channel_id =>
    if r.ticket_id = "" ∨ r.assignee_email = "" ∨ r.message_ts = "" then
      (.missingFieldsError (missingList r), store)
    else
      match resolveAssignee r.assignee_email with
      | none => (.unknownAssignee r.assignee_email, store)
      | some slack_id =>
        match verifyMessage env r.message_ts with
        | .error _ => (.fallbackFailed, store)
        | .ok final_ts =>
          let info := madeTicket now r slack_id final_ts channel_id
          match env.persist with
          | .ok => (.registered channel_id channel_type,
                    alistSet store r.ticket_id info)
          | .ioError => (.serverError, alistSet store r.ticket_id info)

/-- Response bodies of the `/complete_ticket` handler (src/main.py lines
351-376). Only `errorMissingId` and `serverError` carry an `error` key in
their JSON body; `notFound` is the `{status: not_found}` body (sent with
HTTP 404) and `okRemoved` is `{status: ok}`. -/
inductive CompleteResponse where
  | errorMissingId
  | notFound
  | okRemoved
  | serverError
deriving DecidableEq

/-- Whether the JSON body of a completion response is an `{error: ...}`
body rather than a `{status: ...}` body. -/
def isErrorPayload : CompleteResponse → Bool
  | .errorMissingId => true
  | .serverError => true
  | .notFound => false
  | .okRemoved => false

/-- The `/complete_ticket` handler (src/main.py lines 351-376): missing id
is a 400 error; an untracked id is the neutral `not_found` status; a
tracked id is deleted and then saved, a save failure being converted by
the outer handler to a 500 after the in-memory deletion already happened. -/
def complete_ticket (persist : PersistResult) (ticket_id : String)
    (store : TicketStore) : CompleteResponse × TicketStore :=
  if ticket_id = "" then (.errorMissingId, store)
  else
    match alistGet store ticket_id with
    | none => (.notFound, store)
    | some _ =>
      match persist with
      | .ok => (.okRemoved, alistErase store ticket_id)
      | .ioError => (.serverError, alistErase store ticket_id)

/-- The per-ticket match test of the reaction branch of `slack_events`
(src/main.py line 166): same message timestamp, and the stored channel
(defaulting to the SOS channel when absent) equals the event channel. -/
def reactionTargets (cfg : Config) (ts channel : String)
    (info : TicketInfo) : Bool :=
  info.ts = ts &&
    (match (if info.channel_id = "" then cfg.sosChannel
            else some info.channel_id) with
     | some c => c = channel
     | none => false)

/-- The deletion loop of the reaction branch (src/main.py lines 165-169):
every tracked ticket matching the reacted message is removed. -/
def reactionSweep (cfg : Config) (ts channel : String) :
    TicketStore → TicketStore
  | [] => []
  | (k, v) :: rest =>
    if reactionTargets cfg ts channel v then reactionSweep cfg ts channel rest
    else (k, v) :: reactionSweep cfg ts channel rest

/-- The `reaction_added` handling of `/slack/events` (src/main.py lines
156-169), restricted to its effect on the store: only a
`white_check_mark` reaction removes the matching tickets. -/
def slack_events (cfg : Config) (reaction ts channel : String)
    (store : TicketStore) : TicketStore :=
  if reaction = "white_check_mark" then reactionSweep cfg ts channel store
  else store

/-- Little-endian decimal digits of a natural number, with fuel for
structural recursion; the textual timestamp form used by the snapshot. -/
def natToDigitsAux : Nat → Nat → List Nat
  | 0, _ => []
  | fuel + 1, n => if n = 0 then [] else n % 10 :: natToDigitsAux fuel (n / 10)

/-- Serialization of one timestamp into its lossless textual (digit) form,
modelling `datetime.isoformat` (src/main.py lines 113-114). -/
def natToDigits (n : Nat) : List Nat := natToDigitsAux n n

/-- Parsing of the textual timestamp form, modelling
`datetime.fromisoformat` (src/main.py lines 132-133). -/
def digitsToNat : List Nat → Nat
  | [] => 0
  | d :: rest => d + 10 * digitsToNat rest

/-- The shape of one ticket record inside `tickets.json`: every field of
the in-memory record, with the two datetime fields replaced by their
textual form. -/
structure SerializedTicketInfo where
  ts : String
  assignee_slack_id : String
  assignee_email : String
  last_reminder : List Nat
  created_at : List Nat
  reminder_count : Nat
  ticket_url : String
  status : String
  channel_id : String
  channel_type : String
  is_escalation : Bool
deriving DecidableEq

/-- The per-record body of `save_tickets` (src/main.py lines 110-115):
copy the record and turn the two datetimes into their textual form. -/
def serializeInfo (info : TicketInfo) : SerializedTicketInfo :=
  { ts := info.ts
    assignee_slack_id := info.assignee_slack_id
    assignee_email := info.assignee_email
    last_reminder := natToDigits info.last_reminder
    created_at := natToDigits info.created_at
    reminder_count := info.reminder_count
    ticket_url := info.ticket_url
    status := info.status
    channel_id := info.channel_id
    channel_type := info.channel_type
    is_escalation := info.is_escalation }

/-- The per-record body of `load_tickets` (src/main.py lines 129-134):
copy the record and parse the two datetime fields back. -/
def deserializeInfo (s : SerializedTicketInfo) : TicketInfo :=
  { ts := s.ts
    assignee_slack_id := s.assignee_slack_id
    assignee_email := s.assignee_email
    last_reminder := digitsToNat s.last_reminder
    created_at := digitsToNat s.created_at
    reminder_count := s.reminder_count
    ticket_url := s.ticket_url
    status := s.status
    channel_id := s.channel_id
    channel_type := s.channel_type
    is_escalation := s.is_escalation }

/-- The serialization half of `save_tickets` (src/main.py lines 106-120):
the content written to `tickets.json`. -/
def save_tickets (store : TicketStore) : List (String × SerializedTicketInfo) :=
  store.map (fun e => (e.1, serializeInfo e.2))

/-- The deserialization half of `load_tickets` (src/main.py lines 122-140)
on an intact file. -/
def load_tickets (file : List (String × SerializedTicketInfo)) : TicketStore :=
  file.map (fun e => (e.1, deserializeInfo e.2))

/-- The oracle of a wholly successful per-ticket iteration: the reaction
lookup succeeds and finds no check mark, the reminder send succeeds, and
the snapshot write succeeds. -/
def goodTickEnv : TickEnv :=
  { reactions := .ok false, sendReminder := .ok (), saveResult := .ok }

/-- Repeated successful scheduler ticks at the given times over a store. -/
def runTicks (cfg : Config) (times : List Nat) (store : TicketStore) :
    TicketStore :=
  times.foldl
    (fun s t => (check_reminders cfg (fun _ => goodTickEnv) t s).store) store

/-- Each listed time is at least `interval` after the previous one, the
first being at least `interval` after the given base time. -/
def spacedOk (interval : Nat) : Nat → List Nat → Bool
  | _, [] => true
  | last, t :: rest => decide (last + interval ≤ t) && spacedOk interval t rest

/-- A sample channel configuration with both channels set. -/
def sampleCfg : Config := { sosChannel := some "CSOS", escalationsChannel := some "CESC" }

/-- A sample registration oracle where everything succeeds and the claimed
message is found. -/
def sampleNewEnv : NewTicketEnv :=
  { tsParseOk := true, history := .ok true, postFallback := .ok "111.222",
    postFallback2 := .ok "333.444", persist := .ok }

/-! ## Helper lemmas about the store operations and the timestamp codec -/

theorem alistGet_alistErase_self {α : Type} :
    ∀ (s : List (String × α)) (key : String),
      alistGet (alistErase s key) key = none := by
  intro s key
  induction s with
  | nil => rfl
  | cons e rest ih =>
    obtain ⟨k, v⟩ := e
    by_cases hk : k = key
    · simp [alistErase, hk, ih]
    · simp [alistErase, alistGet, hk, ih]

theorem alistGet_alistSet_self {α : Type} :
    ∀ (s : List (String × α)) (key : String) (v : α),
      alistGet (alistSet s key v) key = some v := by
  intro s key v
  induction s with
  | nil => simp [alistSet, alistGet]
  | cons e rest ih =>
    obtain ⟨k, w⟩ := e
    by_cases hk : k = key
    · simp [alistSet, hk, alistGet]
    · simp [alistSet, alistGet, hk, ih]

theorem alistGet_none_iff_not_mem_keys {α : Type} :
    ∀ (s : List (String × α)) (key : String),
      alistGet s key = none ↔ key ∉ s.map Prod.fst := by
  intro s key
  induction s with
  | nil => simp [alistGet]
  | cons e rest ih =>
    obtain ⟨k, v⟩ := e
    by_cases hk : k = key
    · simp [alistGet, hk]
    · simp [alistGet, hk, ih]
      intro h
      exact fun hc => hk hc.symm

theorem digitsToNat_natToDigitsAux :
    ∀ fuel n : Nat, n ≤ fuel → digitsToNat (natToDigitsAux fuel n) = n := by
  intro fuel
  induction fuel with
  | zero =>
    intro n hn
    have h0 : n = 0 := Nat.le_zero.mp hn
    subst h0
    rfl
  | succ fuel ih =>
    intro n hn
    by_cases h0 : n = 0
    · subst h0; rfl
    · have hlt : n / 10 < n := Nat.div_lt_self (Nat.pos_of_ne_zero h0) (by norm_num)
      have hle : n / 10 ≤ fuel := by omega
      simp only [natToDigitsAux, h0, if_false, digitsToNat, ih (n / 10) hle]
      omega

theorem digitsToNat_natToDigits (n : Nat) :
    digitsToNat (natToDigits n) = n :=
  digitsToNat_natToDigitsAux n n (Nat.le_refl n)

theorem deserialize_serialize (info : TicketInfo) :
    deserializeInfo (serializeInfo info) = info := by
  cases info
  simp [serializeInfo, deserializeInfo, digitsToNat_natToDigits]

/-! ## Claim theorems -/

/-- C7: serializing the full ticket set with the snapshot function and
reloading it with the restore function reproduces every field of every
record exactly (timestamps included, via the lossless textual timestamp
codec), for every ticket set, in particular for the empty set and for
sets with at least two tickets mixing escalation and normal records. -/
theorem save_load_roundtrip (store : TicketStore) :
    load_tickets (save_tickets store) = store := by
  induction store with
  | nil => rfl
  | cons e rest ih =>
    simp only [save_tickets, load_tickets, List.map_cons] at ih ⊢
    simp [deserialize_serialize, ih]

/-- C6: during a sweep, a processed ticket produces a reminder send exactly
when the time elapsed since its last reminder is at least 2 hours for an
escalation ticket and at least 4 hours otherwise (given that the
surrounding calls succeed and no check-mark reaction is present); a ticket
with zero elapsed time is never reminded. -/
theorem reminder_due_policy (cfg : Config) (env : TickEnv) (now : Nat)
    (store : TicketStore) (ticket_id : String) (info : TicketInfo)
    (hch : info.channel_id ≠ "")
    (hre : env.reactions = .ok false)
    (hsend : env.sendReminder = .ok ())
    (hsave : env.saveResult = .ok) :
    (Event.reminderSent ticket_id ∈
        eventsOf (processTicket cfg env now store ticket_id info) ↔
      (if info.is_escalation then 2 else 4) * 3600 ≤ now - info.last_reminder)
    ∧ (now = info.last_reminder →
        Event.reminderSent ticket_id ∉
          eventsOf (processTicket cfg env now store ticket_id info)) := by
  have hchan : effectiveChannel cfg info = some info.channel_id := by
    simp [effectiveChannel, hch]
  have hiff : reminderDue now info = true ↔
      (if info.is_escalation then 2 else 4) * 3600 ≤ now - info.last_reminder := by
    simp [reminderDue, reminderHours]
  constructor
  · by_cases hdue : reminderDue now info = true
    · rw [← hiff]
      simp only [hdue, iff_true]
      simp only [processTicket, hchan, hre, hsend, hsave, hdue, if_true,
        Bool.false_eq_true, if_false]
      by_cases h3 : 3 ≤ (applyReminder now info).reminder_count
      · simp [h3, eventsOf]
      · simp [h3, eventsOf]
    · rw [← hiff]
      simp only [hdue, iff_false]
      have hdue2 : reminderDue now info = false := by
        cases h : reminderDue now info
        · rfl
        · exact absurd h hdue
      simp [processTicket, hchan, hre, hdue2, eventsOf]
  · intro hnow
    have hdue2 : reminderDue now info = false := by
      have : now - info.last_reminder = 0 := by omega
      simp [reminderDue, this, reminderHours]
      cases info.is_escalation <;> simp
    simp [processTicket, hchan, hre, hdue2, eventsOf]

/-- Witness for C6 at a concrete due escalation ticket and at zero elapsed
time. -/
def sampleEscTicket : TicketInfo :=
  { ts := "100.001", assignee_slack_id := "U06RX9U53AL",
    assignee_email := "daniel.molina@finally.com", last_reminder := 0,
    created_at := 0, reminder_count := 0,
    ticket_url := "https://finally.zendesk.com/agent/tickets/T1",
    status := "open", channel_id := "CESC", channel_type := "escalations",
    is_escalation := true }

theorem reminder_due_policy_witness :
    (Event.reminderSent "T1" ∈
        eventsOf (processTicket sampleCfg goodTickEnv 7200 [("T1", sampleEscTicket)]
          "T1" sampleEscTicket) ↔
      (if sampleEscTicket.is_escalation then 2 else 4) * 3600 ≤
        7200 - sampleEscTicket.last_reminder)
    ∧ (7200 = sampleEscTicket.last_reminder →
        Event.reminderSent "T1" ∉
          eventsOf (processTicket sampleCfg goodTickEnv 7200
            [("T1", sampleEscTicket)] "T1" sampleEscTicket)) :=
  reminder_due_policy sampleCfg goodTickEnv 7200 [("T1", sampleEscTicket)]
    "T1" sampleEscTicket (by decide) rfl rfl rfl

/-- C9: a registration request whose assignee identifier does not resolve
through the static directory is rejected with the unknown-assignee error
and leaves the ticket store unchanged. -/
theorem unknown_assignee_rejected (cfg : Config) (env : NewTicketEnv)
    (now : Nat) (r : NewTicketRequest) (store : TicketStore)
    (hch : r.channel_id ≠ "") (h1 : r.ticket_id ≠ "")
    (h2 : r.assignee_email ≠ "") (h3 : r.message_ts ≠ "")
    (hun : resolveAssignee r.assignee_email = none) :
    new_ticket cfg env now r store = (.unknownAssignee r.assignee_email, store) := by
  simp [new_ticket, hch, h1, h2, h3, hun]

/-- Witness for C9: the unknown address of the spec example. -/
def sampleUnknownReq : NewTicketRequest :=
  { ticket_id := "T1", assignee_email := "nobody@x.com",
    message_ts := "1714.5", ticket_url := "", channel_id := "C123",
    channel_type := "", is_escalation := false }

theorem unknown_assignee_rejected_witness :
    new_ticket sampleCfg sampleNewEnv 0 sampleUnknownReq [] =
      (.unknownAssignee "nobody@x.com", []) :=
  unknown_assignee_rejected sampleCfg sampleNewEnv 0 sampleUnknownReq []
    (by decide) (by decide) (by decide) (by decide) (by decide)

/-- C10: assignee resolution lowercases the identifier before the directory
lookup, so two identifiers that agree up to letter case resolve to the
same chat user id, and in particular are rejected as unknown together. -/
theorem assignee_resolution_case_insensitive (a b : String)
    (h : pyLower a = pyLower b) :
    resolveAssignee a = resolveAssignee b
    ∧ (resolveAssignee a = none ↔ resolveAssignee b = none) := by
  unfold resolveAssignee
  rw [h]
  exact ⟨rfl, Iff.rfl⟩

/-- Witness for C10: a mixed-case spelling of a directory entry resolves
exactly as the lowercase spelling does. -/
theorem assignee_resolution_case_insensitive_witness :
    (pyLower "Daniel.Molina@FINALLY.com" = pyLower "daniel.molina@finally.com")
    ∧ (resolveAssignee "Daniel.Molina@FINALLY.com" =
        resolveAssignee "daniel.molina@finally.com"
      ∧ (resolveAssignee "Daniel.Molina@FINALLY.com" = none ↔
          resolveAssignee "daniel.molina@finally.com" = none)) :=
  ⟨by decide,
   assignee_resolution_case_insensitive "Daniel.Molina@FINALLY.com"
     "daniel.molina@finally.com" (by decide)⟩

/-- C4: when the reminder send for a due ticket raises, the failure is
caught, the ticket record (its `last_reminder` and `reminder_count`
included) is left unchanged so the reminder is retried on the next tick,
and the sweep proceeds over the remaining tickets exactly as if it had
started there. -/
theorem send_failure_skips_ticket (cfg : Config) (env : String → TickEnv)
    (now : Nat) (store : TicketStore) (ticket_id : String)
    (info : TicketInfo) (rest : List (String × TicketInfo))
    (hch : info.channel_id ≠ "")
    (hre : (env ticket_id).reactions = .ok false)
    (hdue : reminderDue now info = true)
    (hsend : (env ticket_id).sendReminder = .apiError) :
    processTicket cfg (env ticket_id) now store ticket_id info = .ok (store, [])
    ∧ sweepAux cfg env now ((ticket_id, info) :: rest) store =
        sweepAux cfg env now rest store := by
  have hchan : effectiveChannel cfg info = some info.channel_id := by
    simp [effectiveChannel, hch]
  have h1 : processTicket cfg (env ticket_id) now store ticket_id info =
      .ok (store, []) := by
    simp [processTicket, hchan, hre, hdue, hsend]
  refine ⟨h1, ?_⟩
  simp [sweepAux, h1]

/-- A per-ticket oracle where the reminder send raises a `SlackApiError`. -/
def sendFailEnv : String → TickEnv :=
  fun _ => { reactions := .ok false, sendReminder := .apiError,
             saveResult := .ok }

/-- A two-ticket store used by the sweep witnesses. -/
def storeTwo : TicketStore :=
  [("T1", sampleEscTicket), ("T2", sampleEscTicket)]

/-- Witness for C4: a concrete due ticket whose send fails is skipped with
no state change and the sweep continues with the rest. -/
theorem send_failure_skips_ticket_witness :
    processTicket sampleCfg (sendFailEnv "T1") 7200 storeTwo "T1"
        sampleEscTicket = .ok (storeTwo, [])
    ∧ sweepAux sampleCfg sendFailEnv 7200 (("T1", sampleEscTicket) ::
        [("T2", sampleEscTicket)]) storeTwo =
      sweepAux sampleCfg sendFailEnv 7200 [("T2", sampleEscTicket)] storeTwo :=
  send_failure_skips_ticket sampleCfg sendFailEnv 7200 storeTwo "T1"
    sampleEscTicket [("T2", sampleEscTicket)] (by decide) rfl (by decide) rfl

/-- A ticket that has already crossed the escalation threshold
(`reminder_count = 3`) and was reminded moments ago. -/
def crossedTicket : TicketInfo :=
  { sampleEscTicket with reminder_count := 3, last_reminder := 7000 }

/-- Counterexample to C3 as stated: the claim says that once the threshold
is crossed the broadcast re-fires on every subsequent tick. Here a
subsequent tick processes a ticket with `reminder_count = 3` whose last
reminder was 200 seconds ago; the escalation-broadcast condition sits
inside the due branch (src/main.py line 488 inside line 471), so the tick
emits no events at all and the store is untouched. -/
theorem broadcast_skips_nondue_tick :
    3 ≤ crossedTicket.reminder_count
    ∧ eventsOf (processTicket sampleCfg goodTickEnv 7200
        [("T1", crossedTicket)] "T1" crossedTicket) = []
    ∧ storeOf (processTicket sampleCfg goodTickEnv 7200
        [("T1", crossedTicket)] "T1" crossedTicket) = [("T1", crossedTicket)] := by
  refine ⟨by decide, by decide, by decide⟩

/-- C3 (amended): the channel-wide escalation broadcast fires on a tick if
and only if that tick sends a reminder for the ticket (channel resolvable,
no check-mark reaction, due, send and snapshot write succeed) and the
post-increment `reminder_count` is at least 3. Hence it never fires while
`reminder_count < 3` pre-increment below 2, first fires exactly on the
reminder that brings the count to 3, and re-fires on every later
reminder-sending tick — but not on ticks where no reminder is due. -/
theorem broadcast_characterization (cfg : Config) (env : TickEnv) (now : Nat)
    (store : TicketStore) (ticket_id : String) (info : TicketInfo) :
    Event.broadcastSent ticket_id ∈
        eventsOf (processTicket cfg env now store ticket_id info) ↔
      ((effectiveChannel cfg info).isSome ∧ env.reactions = .ok false ∧
        reminderDue now info = true ∧ env.sendReminder = .ok () ∧
        env.saveResult = .ok ∧ 3 ≤ info.reminder_count + 1) := by
  cases hchan : effectiveChannel cfg info with
  | none => simp [processTicket, hchan, eventsOf]
  | some c =>
    cases hre : env.reactions with
    | apiError => simp [processTicket, hchan, hre, eventsOf]
    | ok b =>
      cases b with
      | true =>
        cases hs : env.saveResult with
        | ok => simp [processTicket, hchan, hre, hs, eventsOf]
        | ioError => simp [processTicket, hchan, hre, hs, eventsOf]
      | false =>
        by_cases hdue : reminderDue now info = true
        · cases hsend : env.sendReminder with
          | apiError => simp [processTicket, hchan, hre, hdue, hsend, eventsOf]
          | ok u =>
            cases u
            cases hs : env.saveResult with
            | ioError =>
              simp [processTicket, hchan, hre, hdue, hsend, hs, eventsOf]
            | ok =>
              by_cases h3 : 2 ≤ info.reminder_count
              · simp [processTicket, hchan, hre, hdue, hsend, hs, h3,
                  eventsOf, applyReminder]
              · simp [processTicket, hchan, hre, hdue, hsend, hs, h3,
                  eventsOf, applyReminder]
        · have hdue2 : reminderDue now info = false := by
            cases h : reminderDue now info
            · rfl
            · exact absurd h hdue
          simp [processTicket, hchan, hre, hdue2, eventsOf]

/-- A registration request with the ticket id and a known assignee present
but the message reference absent. -/
def reqMissingTs : NewTicketRequest :=
  { ticket_id := "T1", assignee_email := "daniel.molina@finally.com",
    message_ts := "", ticket_url := "", channel_id := "C123",
    channel_type := "", is_escalation := false }

/-- Counterexample to C1 as stated. The claim says a registration request
is rejected with a validation error if and only if the ticket id or the
assignee identifier is missing, and that an absent message reference
instead triggers the fallback path. The required-fields check at
src/main.py line 207 also covers `message_ts`: this concrete request has
a ticket id and a known assignee but no message reference, and it is
rejected with the missing-fields validation error instead of reaching the
fallback. -/
theorem newTicket_rejects_missing_message_ts :
    reqMissingTs.ticket_id ≠ "" ∧ reqMissingTs.assignee_email ≠ ""
    ∧ new_ticket sampleCfg sampleNewEnv 0 reqMissingTs [] =
        (.missingFieldsError ["message_ts"], []) :=
  ⟨by decide, by decide, by decide⟩

theorem verifyMessage_fallback (env : NewTicketEnv) (ts fb : String)
    (hpf : env.postFallback = .ok fb)
    (h : env.tsParseOk = false ∨ env.history = .ok false ∨
      env.history = .apiError) :
    verifyMessage env ts = .ok fb := by
  unfold verifyMessage
  rcases h with h | h | h
  · simp [h, hpf]
  · cases htp : env.tsParseOk <;> simp [h, hpf]
  · cases htp : env.tsParseOk <;> simp [h, hpf]

/-- C1 (amended): with a destination channel supplied, a registration
request is rejected with the missing-fields validation error if and only
if the ticket id, the assignee identifier, or the message reference is
missing — so an absent message reference is a validation rejection, not a
fallback. The fallback path applies only to a present message reference
that is malformed, not found near its timestamp, or whose lookup raises:
then a placeholder message is posted and the ticket is registered with
the placeholder's identifier as its message reference. -/
theorem newTicket_validation_characterization :
    (∀ (cfg : Config) (env : NewTicketEnv) (now : Nat)
        (r : NewTicketRequest) (store : TicketStore),
      r.channel_id ≠ "" →
      ((∃ m, (new_ticket cfg env now r store).1 = .missingFieldsError m) ↔
        (r.ticket_id = "" ∨ r.assignee_email = "" ∨ r.message_ts = "")))
    ∧ (∀ (cfg : Config) (env : NewTicketEnv) (now : Nat)
        (r : NewTicketRequest) (store : TicketStore)
        (slack_id fallback_ts : String),
        r.channel_id ≠ "" → r.ticket_id ≠ "" → r.assignee_email ≠ "" →
        r.message_ts ≠ "" →
        resolveAssignee r.assignee_email = some slack_id →
        (env.tsParseOk = false ∨ env.history = .ok false ∨
          env.history = .apiError) →
        env.postFallback = .ok fallback_ts →
        env.persist = .ok →
        (new_ticket cfg env now r store).1 =
            .registered r.channel_id
              (if r.channel_type = "" then "sos" else r.channel_type)
          ∧ ∃ info2,
              alistGet (new_ticket cfg env now r store).2 r.ticket_id =
                  some info2
              ∧ info2.ts = fallback_ts) := by
  constructor
  · intro cfg env now r store hch
    constructor
    · rintro ⟨m, hm⟩
      by_contra hnone
      push_neg at hnone
      obtain ⟨h1, h2, h3⟩ := hnone
      cases hra : resolveAssignee r.assignee_email with
      | none => simp [new_ticket, hch, h1, h2, h3, hra] at hm
      | some sid =>
        cases hv : verifyMessage env r.message_ts with
        | error e => simp [new_ticket, hch, h1, h2, h3, hra, hv] at hm
        | ok fts =>
          cases hp : env.persist with
          | ok => simp [new_ticket, hch, h1, h2, h3, hra, hv, hp] at hm
          | ioError => simp [new_ticket, hch, h1, h2, h3, hra, hv, hp] at hm
    · intro hmiss
      refine ⟨missingList r, ?_⟩
      rcases hmiss with h | h | h <;> simp [new_ticket, hch, h]
  · intro cfg env now r store sid fts hch h1 h2 h3 hra hfb hpf hper
    have hv : verifyMessage env r.message_ts = .ok fts :=
      verifyMessage_fallback env r.message_ts fts hpf hfb
    have hall : new_ticket cfg env now r store =
        (.registered r.channel_id
          (if r.channel_type = "" then "sos" else r.channel_type),
         alistSet store r.ticket_id (madeTicket now r sid fts r.channel_id)) := by
      simp [new_ticket, hch, h1, h2, h3, hra, hv, hper]
    rw [hall]
    exact ⟨rfl, madeTicket now r sid fts r.channel_id,
      alistGet_alistSet_self store r.ticket_id _, rfl⟩

/-- A registration oracle whose history lookup succeeds but finds no
message near the claimed timestamp, so the fallback post runs. -/
def fallbackEnv : NewTicketEnv :=
  { tsParseOk := true, history := .ok false, postFallback := .ok "999.111",
    postFallback2 := .ok "333.444", persist := .ok }

/-- A well-formed registration request for a known assignee. -/
def reqKnown : NewTicketRequest :=
  { ticket_id := "T42", assignee_email := "daniel.molina@finally.com",
    message_ts := "123.456", ticket_url := "", channel_id := "C123",
    channel_type := "", is_escalation := false }

/-- Witness for the amended C1: the validation equivalence at the concrete
rejected request, and the concrete fallback registration using the
placeholder's timestamp as message reference. -/
theorem newTicket_validation_characterization_witness :
    ((∃ m, (new_ticket sampleCfg sampleNewEnv 0 reqMissingTs []).1 =
        .missingFieldsError m) ↔
      (reqMissingTs.ticket_id = "" ∨ reqMissingTs.assignee_email = "" ∨
        reqMissingTs.message_ts = ""))
    ∧ ((new_ticket sampleCfg fallbackEnv 5 reqKnown []).1 =
        .registered "C123" "sos"
      ∧ ∃ info2,
          alistGet (new_ticket sampleCfg fallbackEnv 5 reqKnown []).2 "T42" =
              some info2
          ∧ info2.ts = "999.111") :=
  ⟨newTicket_validation_characterization.1 sampleCfg sampleNewEnv 0
      reqMissingTs [] (by decide),
   newTicket_validation_characterization.2 sampleCfg fallbackEnv 5
      reqKnown [] "U06RX9U53AL" "999.111" (by decide) (by decide) (by decide)
      (by decide) (by decide) (Or.inr (Or.inl rfl)) rfl rfl⟩

theorem processTicket_ok_of_save_ok (cfg : Config) (env : TickEnv)
    (now : Nat) (store : TicketStore) (ticket_id : String)
    (info : TicketInfo) (hs : env.saveResult = .ok) :
    ∃ out, processTicket cfg env now store ticket_id info = .ok out := by
  unfold processTicket
  cases hchan : effectiveChannel cfg info with
  | none => exact ⟨_, rfl⟩
  | some c =>
    cases hre : env.reactions with
    | apiError => exact ⟨_, rfl⟩
    | ok b =>
      cases b with
      | true => simp [hs]
      | false =>
        by_cases hdue : reminderDue now info = true
        · cases hsend : env.sendReminder with
          | apiError => simp [hdue, hsend]
          | ok u =>
            by_cases h3 : 2 ≤ info.reminder_count <;>
              simp [hdue, hsend, hs, h3, applyReminder]
        · have hdue2 : reminderDue now info = false := by
            cases hq : reminderDue now info
            · rfl
            · exact absurd hq hdue
          simp [hdue2]

theorem sweepAux_no_abort (cfg : Config) (env : String → TickEnv) (now : Nat)
    (hs : ∀ t, (env t).saveResult = .ok) :
    ∀ (entries : List (String × TicketInfo)) (store : TicketStore),
      (sweepAux cfg env now entries store).aborted = false := by
  intro entries
  induction entries with
  | nil => intro store; rfl
  | cons e rest ih =>
    intro store
    obtain ⟨tid, info⟩ := e
    obtain ⟨out, hout⟩ :=
      processTicket_ok_of_save_ok cfg (env tid) now store tid info (hs tid)
    obtain ⟨s2, evs⟩ := out
    simp [sweepAux, hout, ih]

theorem processTicket_error_cases (cfg : Config) (env : TickEnv) (now : Nat)
    (store : TicketStore) (ticket_id : String) (info : TicketInfo)
    (store2 : TicketStore) (evs : List Event)
    (h : processTicket cfg env now store ticket_id info = .error (store2, evs)) :
    (store2 = alistErase store ticket_id ∧ evs = [.removed ticket_id])
    ∨ (store2 = alistSet store ticket_id (applyReminder now info) ∧
        evs = [.reminderSent ticket_id]) := by
  unfold processTicket at h
  cases hchan : effectiveChannel cfg info with
  | none => simp [hchan] at h
  | some c =>
    cases hre : env.reactions with
    | apiError => simp [hchan, hre] at h
    | ok b =>
      cases b with
      | true =>
        cases hsv : env.saveResult with
        | ok => simp [hchan, hre, hsv] at h
        | ioError =>
          simp [hchan, hre, hsv] at h
          exact Or.inl ⟨h.1.symm, h.2.symm⟩
      | false =>
        by_cases hdue : reminderDue now info = true
        · cases hsend : env.sendReminder with
          | apiError => simp [hchan, hre, hdue, hsend] at h
          | ok u =>
            cases hsv : env.saveResult with
            | ioError =>
              simp [hchan, hre, hdue, hsend, hsv] at h
              exact Or.inr ⟨h.1.symm, h.2.symm⟩
            | ok =>
              by_cases h3 : 2 ≤ info.reminder_count <;>
                simp [hchan, hre, hdue, hsend, hsv, h3, applyReminder] at h
        · have hdue2 : reminderDue now info = false := by
            cases hq : reminderDue now info
            · rfl
            · exact absurd hq hdue
          simp [hchan, hre, hdue2] at h

/-- C2 (amended): chat-platform (`SlackApiError`) failures really are
contained per ticket — whenever the snapshot writes succeed, the sweep
never aborts, whatever mix of reaction-lookup and send failures the
tickets hit; and a snapshot-write failure never rolls back the in-memory
mutation — at the point of the raise, the store already holds the
removal or the applied reminder update. A snapshot-write failure is not
contained per-ticket, however: it propagates out of the sweep (see the
counterexample), and only the scheduler library above the program keeps
it from the process. -/
theorem sweep_error_containment :
    (∀ (cfg : Config) (env : String → TickEnv) (now : Nat)
        (store : TicketStore),
      (∀ t, (env t).saveResult = PersistResult.ok) →
      (check_reminders cfg env now store).aborted = false)
    ∧ (∀ (cfg : Config) (env : TickEnv) (now : Nat) (store : TicketStore)
        (ticket_id : String) (info : TicketInfo) (store2 : TicketStore)
        (evs : List Event),
        processTicket cfg env now store ticket_id info = .error (store2, evs) →
        (store2 = alistErase store ticket_id ∧ evs = [.removed ticket_id])
        ∨ (store2 = alistSet store ticket_id (applyReminder now info) ∧
            evs = [.reminderSent ticket_id])) := by
  constructor
  · intro cfg env now store hs
    exact sweepAux_no_abort cfg env now hs store store
  · intro cfg env now store tid info store2 evs h
    exact processTicket_error_cases cfg env now store tid info store2 evs h

/-- A ticket whose check-mark reaction is about to be detected. -/
def ticketA : TicketInfo := { sampleEscTicket with ts := "200.002" }

/-- A normal (4-hour cadence) ticket, due at time 20000. -/
def dueTicketB : TicketInfo := { sampleEscTicket with is_escalation := false }

/-- An oracle where ticket A's snapshot write fails after its removal,
while every other ticket would be processed cleanly. -/
def abortEnv : String → TickEnv :=
  fun t =>
    if t = "A" then
      { reactions := .ok true, sendReminder := .ok (), saveResult := .ioError }
    else goodTickEnv

/-- The two-ticket store for the persistence-failure counterexample. -/
def storeAB : TicketStore := [("A", ticketA), ("B", dueTicketB)]

/-- Counterexample to C2 as stated. The claim says an error raised while
processing one ticket — including a snapshot-write failure — never
prevents the remaining tickets of the sweep from being processed. The
per-ticket handler at src/main.py line 495 catches only `SlackApiError`,
so when ticket A's `save_tickets()` raises after A's removal, the sweep
aborts: ticket B is due for a reminder, yet the sweep ends with only A's
removal event, B untouched and unreminded. -/
theorem persistFailure_aborts_sweep :
    reminderDue 20000 dueTicketB = true
    ∧ check_reminders sampleCfg abortEnv 20000 storeAB =
        { store := [("B", dueTicketB)], events := [Event.removed "A"],
          aborted := true } :=
  ⟨by decide, by decide⟩

/-- Witness for the amended C2: a concrete sweep full of `SlackApiError`
failures with sound persistence never aborts, and a concrete erroring
per-ticket run keeps its already-applied removal. -/
theorem sweep_error_containment_witness :
    (check_reminders sampleCfg sendFailEnv 20000 storeAB).aborted = false
    ∧ (([("B", dueTicketB)] = alistErase storeAB "A" ∧
          [Event.removed "A"] = [Event.removed "A"])
      ∨ ([("B", dueTicketB)] =
            alistSet storeAB "A" (applyReminder 20000 ticketA) ∧
          [Event.removed "A"] = [Event.reminderSent "A"])) :=
  ⟨sweep_error_containment.1 sampleCfg sendFailEnv 20000 storeAB
      (fun _ => rfl),
   sweep_error_containment.2 sampleCfg (abortEnv "A") 20000 storeAB "A"
      ticketA [("B", dueTicketB)] [Event.removed "A"] rfl⟩

theorem alistGet_reactionSweep_none (cfg : Config) (ts channel : String) :
    ∀ (s : TicketStore) (tid : String), alistGet s tid = none →
      alistGet (reactionSweep cfg ts channel s) tid = none := by
  intro s
  induction s with
  | nil => intro tid h; exact h
  | cons e rest ih =>
    intro tid h
    obtain ⟨k, v⟩ := e
    by_cases hk : k = tid
    · simp [alistGet, hk] at h
    · simp [alistGet, hk] at h
      by_cases htv : reactionTargets cfg ts channel v = true
      · simp [reactionSweep, htv]
        exact ih tid h
      · rw [Bool.not_eq_true] at htv
        simp [reactionSweep, htv, alistGet, hk]
        exact ih tid h

theorem reactionSweep_removes (cfg : Config) (ts channel : String) :
    ∀ (s : TicketStore) (tid : String) (info : TicketInfo),
      (s.map Prod.fst).Nodup → alistGet s tid = some info →
      reactionTargets cfg ts channel info = true →
      alistGet (reactionSweep cfg ts channel s) tid = none := by
  intro s
  induction s with
  | nil => intro tid info _ h _; simp [alistGet] at h
  | cons e rest ih =>
    intro tid info hnd h htgt
    obtain ⟨k, v⟩ := e
    simp only [List.map_cons, List.nodup_cons] at hnd
    obtain ⟨hk1, hk2⟩ := hnd
    by_cases hk : k = tid
    · subst hk
      simp [alistGet] at h
      subst h
      simp [reactionSweep, htgt]
      exact alistGet_reactionSweep_none cfg ts channel rest k
        ((alistGet_none_iff_not_mem_keys rest k).mpr hk1)
    · simp [alistGet, hk] at h
      by_cases htv : reactionTargets cfg ts channel v = true
      · simp [reactionSweep, htv]
        exact ih tid info hk2 h htgt
      · rw [Bool.not_eq_true] at htv
        simp [reactionSweep, htv, alistGet, hk]
        exact ih tid info hk2 h htgt

theorem processTicket_events_ids (cfg : Config) (env : TickEnv) (now : Nat)
    (store : TicketStore) (ticket_id : String) (info : TicketInfo) (e : Event)
    (he : e ∈ eventsOf (processTicket cfg env now store ticket_id info)) :
    e = .removed ticket_id ∨ e = .reminderSent ticket_id ∨
      e = .broadcastSent ticket_id := by
  cases hchan : effectiveChannel cfg info with
  | none => simp [processTicket, hchan, eventsOf] at he
  | some c =>
    cases hre : env.reactions with
    | apiError => simp [processTicket, hchan, hre, eventsOf] at he
    | ok b =>
      cases b with
      | true =>
        cases hsv : env.saveResult with
        | ok =>
          simp [processTicket, hchan, hre, hsv, eventsOf] at he
          tauto
        | ioError =>
          simp [processTicket, hchan, hre, hsv, eventsOf] at he
          tauto
      | false =>
        by_cases hdue : reminderDue now info = true
        · cases hsend : env.sendReminder with
          | apiError =>
            simp [processTicket, hchan, hre, hdue, hsend, eventsOf] at he
          | ok u =>
            cases u
            cases hsv : env.saveResult with
            | ioError =>
              simp [processTicket, hchan, hre, hdue, hsend, hsv, eventsOf] at he
              tauto
            | ok =>
              by_cases h3 : 2 ≤ info.reminder_count <;>
                simp [processTicket, hchan, hre, hdue, hsend, hsv, h3,
                  applyReminder, eventsOf] at he <;>
                tauto
        · rw [Bool.not_eq_true] at hdue
          simp [processTicket, hchan, hre, hdue, eventsOf] at he

theorem sweepAux_events_ids (cfg : Config) (env : String → TickEnv)
    (now : Nat) :
    ∀ (entries : List (String × TicketInfo)) (store : TicketStore) (e : Event),
      e ∈ (sweepAux cfg env now entries store).events →
      ∃ k, k ∈ entries.map Prod.fst ∧
        (e = .removed k ∨ e = .reminderSent k ∨ e = .broadcastSent k) := by
  intro entries
  induction entries with
  | nil => intro store e he; simp [sweepAux] at he
  | cons ent rest ih =>
    intro store e he
    obtain ⟨tid, info⟩ := ent
    cases hpt : processTicket cfg (env tid) now store tid info with
    | ok out =>
      obtain ⟨s2, evs⟩ := out
      simp only [sweepAux, hpt] at he
      simp at he
      rcases he with he | he
      · have hids := processTicket_events_ids cfg (env tid) now store tid info e
          (by rw [hpt]; exact he)
        exact ⟨tid, by simp, hids⟩
      · obtain ⟨k, hk, hor⟩ := ih s2 e he
        exact ⟨k, by simp [hk], hor⟩
    | error out =>
      obtain ⟨s2, evs⟩ := out
      simp only [sweepAux, hpt] at he
      have hids := processTicket_events_ids cfg (env tid) now store tid info e
        (by rw [hpt]; exact he)
      exact ⟨tid, by simp, hids⟩

theorem removed_not_in_sweep (cfg : Config) (env : String → TickEnv)
    (now : Nat) (store : TicketStore) (ticket_id : String)
    (h : alistGet store ticket_id = none) :
    Event.removed ticket_id ∉ (check_reminders cfg env now store).events := by
  intro hin
  obtain ⟨k, hk, hor⟩ := sweepAux_events_ids cfg env now store store _ hin
  rcases hor with hor | hor | hor
  · injection hor with hk2
    subst hk2
    rw [alistGet_none_iff_not_mem_keys] at h
    exact h hk
  · simp at hor
  · simp at hor

/-- C5: completion is idempotent across the three signal paths. The first
explicit completion of a tracked id removes it and answers the ok status;
once the id is gone — whether it was removed explicitly or by the
check-mark reaction sweep — a second explicit completion answers the
neutral not-found status (whose body is a status, not an error, whatever
the persistence outcome), leaves the store unchanged, and a later
scheduler sweep never removes that id again. -/
theorem completion_idempotent (cfg : Config) (persist2 : PersistResult)
    (store : TicketStore) (ticket_id : String) (info : TicketInfo)
    (env2 : String → TickEnv) (now2 : Nat) (ts channel : String)
    (hmem : alistGet store ticket_id = some info)
    (hid : ticket_id ≠ "")
    (hnodup : (store.map Prod.fst).Nodup)
    (htgt : reactionTargets cfg ts channel info = true) :
    complete_ticket .ok ticket_id store =
        (.okRemoved, alistErase store ticket_id)
    ∧ alistGet (alistErase store ticket_id) ticket_id = none
    ∧ complete_ticket persist2 ticket_id (alistErase store ticket_id) =
        (.notFound, alistErase store ticket_id)
    ∧ isErrorPayload .notFound = false
    ∧ alistGet (slack_events cfg "white_check_mark" ts channel store)
        ticket_id = none
    ∧ complete_ticket persist2 ticket_id
          (slack_events cfg "white_check_mark" ts channel store) =
        (.notFound, slack_events cfg "white_check_mark" ts channel store)
    ∧ Event.removed ticket_id ∉
        (check_reminders cfg env2 now2 (alistErase store ticket_id)).events := by
  have herase : alistGet (alistErase store ticket_id) ticket_id = none :=
    alistGet_alistErase_self store ticket_id
  have hreact : alistGet (slack_events cfg "white_check_mark" ts channel store)
      ticket_id = none := by
    simp only [slack_events, if_pos rfl]
    exact reactionSweep_removes cfg ts channel store ticket_id info hnodup
      hmem htgt
  refine ⟨?_, herase, ?_, rfl, hreact, ?_, ?_⟩
  · simp [complete_ticket, hid, hmem]
  · simp [complete_ticket, hid, herase]
  · simp [complete_ticket, hid, hreact]
  · exact removed_not_in_sweep cfg env2 now2 _ ticket_id herase

/-- Witness for C5 on a concrete one-ticket store, exercising the explicit
call, the reaction path and a subsequent sweep. -/
theorem completion_idempotent_witness :
    complete_ticket .ok "T1" [("T1", sampleEscTicket)] =
        (.okRemoved, alistErase [("T1", sampleEscTicket)] "T1")
    ∧ alistGet (alistErase [("T1", sampleEscTicket)] "T1") "T1" = none
    ∧ complete_ticket .ioError "T1" (alistErase [("T1", sampleEscTicket)] "T1") =
        (.notFound, alistErase [("T1", sampleEscTicket)] "T1")
    ∧ isErrorPayload .notFound = false
    ∧ alistGet (slack_events sampleCfg "white_check_mark" "100.001" "CESC"
        [("T1", sampleEscTicket)]) "T1" = none
    ∧ complete_ticket .ioError "T1"
          (slack_events sampleCfg "white_check_mark" "100.001" "CESC"
            [("T1", sampleEscTicket)]) =
        (.notFound, slack_events sampleCfg "white_check_mark" "100.001" "CESC"
          [("T1", sampleEscTicket)])
    ∧ Event.removed "T1" ∉
        (check_reminders sampleCfg (fun _ => goodTickEnv) 7200
          (alistErase [("T1", sampleEscTicket)] "T1")).events :=
  completion_idempotent sampleCfg .ioError [("T1", sampleEscTicket)] "T1"
    sampleEscTicket (fun _ => goodTickEnv) 7200 "100.001" "CESC"
    (by decide) (by decide) (by decide) (by decide)

theorem tick_singleton_due (cfg : Config) (ticket_id : String)
    (info : TicketInfo) (t : Nat) (hch : info.channel_id ≠ "")
    (hdue : reminderDue t info = true) :
    (check_reminders cfg (fun _ => goodTickEnv) t [(ticket_id, info)]).store =
      [(ticket_id, applyReminder t info)] := by
  have hchan : effectiveChannel cfg info = some info.channel_id := by
    simp [effectiveChannel, hch]
  by_cases h3 : 2 ≤ info.reminder_count <;>
    simp [check_reminders, sweepAux, processTicket, hchan, goodTickEnv,
      hdue, h3, applyReminder, alistSet]

theorem runTicks_singleton (cfg : Config) (ticket_id : String) :
    ∀ (times : List Nat) (info : TicketInfo), info.channel_id ≠ "" →
      spacedOk (reminderHours info * 3600) info.last_reminder times = true →
      ∃ info2, runTicks cfg times [(ticket_id, info)] = [(ticket_id, info2)]
        ∧ info2.reminder_count = info.reminder_count + times.length := by
  intro times
  induction times with
  | nil => intro info hch hsp; exact ⟨info, rfl, rfl⟩
  | cons t rest ih =>
    intro info hch hsp
    simp only [spacedOk, Bool.and_eq_true, decide_eq_true_eq] at hsp
    obtain ⟨h1, h2⟩ := hsp
    have hdue : reminderDue t info = true := by
      simp only [reminderDue, decide_eq_true_eq]
      omega
    have hstep := tick_singleton_due cfg ticket_id info t hch hdue
    have hch2 : (applyReminder t info).channel_id ≠ "" := hch
    have hsp2 : spacedOk (reminderHours (applyReminder t info) * 3600)
        (applyReminder t info).last_reminder rest = true := by
      simpa [applyReminder, reminderHours] using h2
    obtain ⟨info2, hrun, hcount⟩ := ih (applyReminder t info) hch2 hsp2
    refine ⟨info2, ?_, ?_⟩
    · unfold runTicks at hrun ⊢
      rw [List.foldl_cons, hstep]
      exact hrun
    · rw [hcount]
      simp [applyReminder]
      omega

/-- C8: `reminder_count` is monotone under the sweep — a processed ticket
still in the store has a count that never decreased, incremented by
exactly 1 when a reminder was sent for it this tick and unchanged when the
tick merely inspected it; and starting from a fresh ticket
(`reminder_count = 0`), N wholly successful ticks each spaced at least one
reminder interval after the previous reminder leave `reminder_count = N`. -/
theorem reminder_count_monotone_ticks :
    (∀ (cfg : Config) (env : TickEnv) (now : Nat) (store : TicketStore)
        (ticket_id : String) (info info2 : TicketInfo),
      alistGet store ticket_id = some info →
      alistGet (storeOf (processTicket cfg env now store ticket_id info))
          ticket_id = some info2 →
      info.reminder_count ≤ info2.reminder_count
        ∧ (Event.reminderSent ticket_id ∈
              eventsOf (processTicket cfg env now store ticket_id info) →
            info2.reminder_count = info.reminder_count + 1)
        ∧ (Event.reminderSent ticket_id ∉
              eventsOf (processTicket cfg env now store ticket_id info) →
            info2.reminder_count = info.reminder_count))
    ∧ (∀ (cfg : Config) (ticket_id : String) (info : TicketInfo)
        (times : List Nat),
        info.channel_id ≠ "" → info.reminder_count = 0 →
        spacedOk (reminderHours info * 3600) info.last_reminder times = true →
        ∃ info2,
          runTicks cfg times [(ticket_id, info)] = [(ticket_id, info2)]
            ∧ info2.reminder_count = times.length) := by
  constructor
  · intro cfg env now store ticket_id info info2 hmem h
    cases hchan : effectiveChannel cfg info with
    | none =>
      simp only [processTicket, hchan, storeOf, eventsOf] at h ⊢
      rw [hmem] at h
      obtain rfl := Option.some.inj h
      simp
    | some c =>
      cases hre : env.reactions with
      | apiError =>
        simp only [processTicket, hchan, hre, storeOf, eventsOf] at h ⊢
        rw [hmem] at h
        obtain rfl := Option.some.inj h
        simp
      | ok b =>
        cases b with
        | true =>
          cases hsv : env.saveResult with
          | ok =>
            simp only [processTicket, hchan, hre, hsv, if_true, storeOf] at h
            simp [alistGet_alistErase_self] at h
          | ioError =>
            simp only [processTicket, hchan, hre, hsv, if_true, storeOf] at h
            simp [alistGet_alistErase_self] at h
        | false =>
          by_cases hdue : reminderDue now info = true
          · cases hsend : env.sendReminder with
            | apiError =>
              simp only [processTicket, hchan, hre, hdue, hsend, storeOf,
                eventsOf] at h ⊢
              simp at h ⊢
              rw [hmem] at h
              obtain rfl := Option.some.inj h
              simp
            | ok u =>
              cases u
              cases hsv : env.saveResult with
              | ioError =>
                simp only [processTicket, hchan, hre, hdue, hsend, hsv,
                  storeOf, eventsOf] at h ⊢
                simp at h ⊢
                rw [alistGet_alistSet_self] at h
                obtain rfl := Option.some.inj h
                simp [applyReminder]
              | ok =>
                by_cases h3 : 2 ≤ info.reminder_count <;>
                  (simp only [processTicket, hchan, hre, hdue, hsend, hsv,
                    h3, storeOf, eventsOf] at h ⊢
                   simp [h3, applyReminder] at h ⊢
                   rw [alistGet_alistSet_self] at h
                   obtain rfl := Option.some.inj h
                   simp)
          · rw [Bool.not_eq_true] at hdue
            simp only [processTicket, hchan, hre, hdue, storeOf, eventsOf]
              at h ⊢
            simp at h ⊢
            rw [hmem] at h
            obtain rfl := Option.some.inj h
            simp
  · intro cfg ticket_id info times hch h0 hsp
    obtain ⟨info2, hrun, hcount⟩ :=
      runTicks_singleton cfg ticket_id times info hch hsp
    exact ⟨info2, hrun, by rw [hcount, h0, Nat.zero_add]⟩

/-- Witness for C8: a concrete fresh escalation ticket receives exactly 3
reminders over 3 ticks spaced one interval apart, and a concrete per-tick
step increments its count by exactly 1. -/
theorem reminder_count_monotone_ticks_witness :
    (sampleEscTicket.reminder_count ≤
        (applyReminder 7200 sampleEscTicket).reminder_count
      ∧ (Event.reminderSent "T1" ∈
            eventsOf (processTicket sampleCfg goodTickEnv 7200
              [("T1", sampleEscTicket)] "T1" sampleEscTicket) →
          (applyReminder 7200 sampleEscTicket).reminder_count =
            sampleEscTicket.reminder_count + 1)
      ∧ (Event.reminderSent "T1" ∉
            eventsOf (processTicket sampleCfg goodTickEnv 7200
              [("T1", sampleEscTicket)] "T1" sampleEscTicket) →
          (applyReminder 7200 sampleEscTicket).reminder_count =
            sampleEscTicket.reminder_count))
    ∧ ∃ info2,
        runTicks sampleCfg [7200, 14400, 21600] [("T1", sampleEscTicket)] =
            [("T1", info2)]
          ∧ info2.reminder_count = 3 :=
  ⟨reminder_count_monotone_ticks.1 sampleCfg goodTickEnv 7200
      [("T1", sampleEscTicket)] "T1" sampleEscTicket
      (applyReminder 7200 sampleEscTicket) (by decide) (by decide),
   reminder_count_monotone_ticks.2 sampleCfg "T1" sampleEscTicket
      [7200, 14400, 21600] (by decide) (by decide) (by decide)⟩

end ReminderBot
